import Mathlib

/-!
Shallow embedding of the stream-king email dispatch operation.

The embedded code is the Deno edge function `send-email` (the `serve`
handler bundled with `src/pages/Index.tsx`) together with the client-side
compose flow of `src/components/mail/ComposeEmail.tsx`.  Effectful steps
(auth resolution, configuration lookup, SMTP send/close, history insert)
are modelled by an explicit environment of oracle results, and the handler
returns, besides the HTTP response, an explicit trace of the side effects
it performed (transport attempts, session close, history-insert attempts).

JavaScript conventions captured by the embedding:
  - an absent (`undefined`) or `null` JSON field is `Option.none`;
  - string truthiness: the empty string is falsy (`falsyStr`);
  - array truthiness: every array, the empty one included, is truthy,
    so `x || null` keeps an empty array (`jsOrNull`);
  - a thrown exception carries a message string (`Except String`).
-/

/-- Row of the `smtp_configs` table (see the SQL migration and the
`SmtpConfig` interfaces in the client components). -/
structure SmtpConfig where
  id : String
  user_id : String
  smtp_host : String
  smtp_port : Nat
  smtp_username : String
  smtp_password : String
  from_email : String
  from_name : Option String
  use_tls : Bool
deriving DecidableEq

/-- The JSON body of a dispatch request (`SendEmailRequest` interface in the
edge function).  Every field is optional at the wire level; the handler
itself checks presence. -/
structure SendEmailRequest where
  smtp_config_id : Option String
  «to» : Option (List String)
  cc : Option (List String)
  bcc : Option (List String)
  subject : Option String
  body : Option String
  is_html : Option Bool
deriving DecidableEq

/-- A row inserted into the `sent_emails` table. -/
structure SentEmailRecord where
  user_id : String
  smtp_config_id : Option String
  to_emails : Option (List String)
  cc_emails : Option (List String)
  bcc_emails : Option (List String)
  subject : Option String
  body : Option String
  is_html : Bool
  status : String
  error_message : Option String
deriving DecidableEq

/-- The `emailContent` object handed to `client.send` (denomailer). -/
structure EmailContent where
  «from» : String
  «to» : List String
  subject : String
  cc : Option (List String)
  bcc : Option (List String)
  html : Option String
  content : Option String
deriving DecidableEq

deriving instance DecidableEq for Except

/-- The HTTP request as the handler sees it: method, `Authorization` header,
and the result of `req.json()` (`Except.error` models a parse throw, whose
message string is carried along). -/
structure HttpRequest where
  method : String
  authHeader : Option String
  bodyJson : Except String SendEmailRequest
deriving DecidableEq

/-- The JSON response produced by the handler (`success` is `none` for the
body-less CORS preflight response). -/
structure HttpResponse where
  status : Nat
  success : Option Bool
  message : Option String
  error : Option String
deriving DecidableEq

/-- Trace of the handler's side effects during one call:
`sendAttempts` counts calls of `client.send` (each opens the transport
session), `transmitted` records that a send completed, `sentContent` is the
content handed to the transport, `closeAttempted`/`sessionClosed` track
`client.close`, and `inserts` lists the `sent_emails` insert attempts in
order. -/
structure Effects where
  sendAttempts : Nat
  transmitted : Bool
  sentContent : Option EmailContent
  closeAttempted : Bool
  sessionClosed : Bool
  inserts : List SentEmailRecord
deriving DecidableEq

/-- The empty effect trace. -/
def noEffects : Effects :=
  { sendAttempts := 0, transmitted := false, sentContent := none,
    closeAttempted := false, sessionClosed := false, inserts := [] }

/-- Environment of oracle results for one handler call: `resolveUser`
models `supabaseUser.auth.getUser()` for a given `Authorization` header
value, `configStore` the rows of `smtp_configs`, `sendResult` the outcome
of `client.send` (`Except.error` is a thrown transport error and its
message), `closeResult` the outcome of `client.close`, and `insertResult`
the outcome a `sent_emails` insert would report (`some` an error).  The
handler ignores insert errors, so `insertResult` does not influence it;
it is kept to state that fact. -/
structure Env where
  resolveUser : String → Option String
  configStore : List SmtpConfig
  sendResult : Except String Unit
  closeResult : Except String Unit
  insertResult : SentEmailRecord → Option String

/-- JS truthiness of an optional string: `undefined`/`null` and the empty
string are falsy. -/
def falsyStr : Option String → Bool
  | none => true
  | some s => s = ""

/-- JS `x || null` on an optional array: `undefined`/`null` become `null`;
any array, the empty one included, is truthy and is kept unchanged. -/
def jsOrNull (x : Option (List String)) : Option (List String) := x

/-- The required-field check of the handler:
`!smtp_config_id || !to || to.length === 0 || !subject || !body`. -/
def missingRequiredFields (r : SendEmailRequest) : Bool :=
  falsyStr r.smtp_config_id ||
  (match r.«to» with
   | none => true
   | some l => l.length == 0) ||
  falsyStr r.subject || falsyStr r.body

/-- The `smtp_configs` lookup:
`.eq("id", smtp_config_id).eq("user_id", user.id).single()`; `.single()`
succeeds only when exactly one row matches. -/
def lookupConfig (store : List SmtpConfig) (id uid : String) : Option SmtpConfig :=
  match store.filter (fun c => c.id == id && c.user_id == uid) with
  | [c] => some c
  | _ => none

/-- `fromAddress`: `from_name ? `${from_name} <${from_email}>` : from_email`
(an empty `from_name` is falsy). -/
def fromAddress (cfg : SmtpConfig) : String :=
  match cfg.from_name with
  | some n => if n = "" then cfg.from_email else n ++ " <" ++ cfg.from_email ++ ">"
  | none => cfg.from_email

/-- Construction of `emailContent`: `cc`/`bcc` are attached only when
present and non-empty; the body goes to `html` when `is_html` (default
`false`), otherwise to `content`. -/
def buildEmailContent (r : SendEmailRequest) (cfg : SmtpConfig) : EmailContent :=
  let is_html := r.is_html.getD false
  { «from» := fromAddress cfg
    «to» := r.«to».getD []
    subject := r.subject.getD ""
    cc := match r.cc with
          | some l => if 0 < l.length then some l else none
          | none => none
    bcc := match r.bcc with
           | some l => if 0 < l.length then some l else none
           | none => none
    html := if is_html then some (r.body.getD "") else none
    content := if is_html then none else some (r.body.getD "") }

/-- The `sent_emails` row inserted on the success path (`status: "sent"`).
`cc_emails: cc || null` keeps an empty array. -/
def successRecord (uid : String) (r : SendEmailRequest) : SentEmailRecord :=
  { user_id := uid
    smtp_config_id := r.smtp_config_id
    to_emails := r.«to»
    cc_emails := jsOrNull r.cc
    bcc_emails := jsOrNull r.bcc
    subject := r.subject
    body := r.body
    is_html := r.is_html.getD false
    status := "sent"
    error_message := none }

/-- The `sent_emails` row inserted in the catch block (`status: "failed"`,
fields re-read from `req.clone().json()`). -/
def failedRecord (uid : String) (r : SendEmailRequest) (errMsg : String) : SentEmailRecord :=
  { user_id := uid
    smtp_config_id := r.smtp_config_id
    to_emails := r.«to»
    cc_emails := jsOrNull r.cc
    bcc_emails := jsOrNull r.bcc
    subject := r.subject
    body := r.body
    is_html := r.is_html.getD false
    status := "failed"
    error_message := some errMsg }

/-- The insert attempts of the handler's catch block: it re-reads the
`Authorization` header, re-resolves the user, re-parses the request body
(`req.clone().json()`), and, only when all three succeed, attempts one
`status: "failed"` insert (its own failure is swallowed by the inner
catch). -/
def catchInserts (env : Env) (req : HttpRequest) (errMsg : String) : List SentEmailRecord :=
  match req.authHeader with
  | none => []
  | some authHeader =>
    match env.resolveUser authHeader with
    | none => []
    | some uid =>
      match req.bodyJson with
      | .error _ => []
      | .ok r => [failedRecord uid r errMsg]

/-- The response and effect trace of the catch block: status 500 with
`error.message || "Failed to send email"`, and the insert attempts of
`catchInserts` appended to the incoming trace. -/
def catchBlock (env : Env) (req : HttpRequest) (errMsg : String) (eff : Effects) :
    HttpResponse × Effects :=
  ({ status := 500, success := some false, message := none,
     error := some (if errMsg = "" then "Failed to send email" else errMsg) },
   { eff with inserts := eff.inserts ++ catchInserts env req errMsg })

/-- The `send-email` edge-function handler, step for step:
CORS preflight, `Authorization` header check (401), user resolution (401),
body parse (a throw lands in the catch block), required-field check (400),
`smtp_configs` lookup scoped to the user (404), `client.send` followed by
`client.close` (a throw of either lands in the catch block; `close` is only
reached after `send` returned), best-effort `sent_emails` insert whose
error is ignored, success response (200). -/
def handleSendEmail (env : Env) (req : HttpRequest) : HttpResponse × Effects :=
  if req.method = "OPTIONS" then
    ({ status := 200, success := none, message := none, error := none }, noEffects)
  else
    match req.authHeader with
    | none =>
      ({ status := 401, success := some false, message := none,
         error := some "Missing authorization header" }, noEffects)
    | some authHeader =>
      match env.resolveUser authHeader with
      | none =>
        ({ status := 401, success := some false, message := none,
           error := some "Unauthorized" }, noEffects)
      | some uid =>
        match req.bodyJson with
        | .error e => catchBlock env req e noEffects
        | .ok r =>
          if missingRequiredFields r then
            ({ status := 400, success := some false, message := none,
               error := some "Missing required fields" }, noEffects)
          else
            match lookupConfig env.configStore (r.smtp_config_id.getD "") uid with
            | none =>
              ({ status := 404, success := some false, message := none,
                 error := some "SMTP configuration not found" }, noEffects)
            | some cfg =>
              let content := buildEmailContent r cfg
              match env.sendResult with
              | .error e =>
                catchBlock env req e
                  { noEffects with sendAttempts := 1, sentContent := some content }
              | .ok _ =>
                match env.closeResult with
                | .error e =>
                  catchBlock env req e
                    { sendAttempts := 1, transmitted := true, sentContent := some content,
                      closeAttempted := true, sessionClosed := false, inserts := [] }
                | .ok _ =>
                  ({ status := 200, success := some true,
                     message := some "Email sent successfully", error := none },
                   { sendAttempts := 1, transmitted := true, sentContent := some content,
                     closeAttempted := true, sessionClosed := true,
                     inserts := [successRecord uid r] })

/-! ### Client-side compose flow (`ComposeEmail.tsx`) -/

/-- JS `String.prototype.trim`: strip leading and trailing whitespace.
Implemented by structural recursion on the character list so that it
evaluates inside the kernel. -/
def jsTrim (s : String) : String :=
  (((s.toList.dropWhile Char.isWhitespace).reverse.dropWhile
      Char.isWhitespace).reverse).asString

/-- Split a character list at every occurrence of `sep` (the separator is
dropped, empty pieces are kept), as JS `String.prototype.split` does. -/
def splitOnChar (sep : Char) : List Char → List (List Char)
  | [] => [[]]
  | c :: rest =>
    if c = sep then [] :: splitOnChar sep rest
    else
      match splitOnChar sep rest with
      | [] => [[c]]
      | g :: gs => (c :: g) :: gs

/-- JS `s.split(sep)` for a one-character separator. -/
def jsSplit (sep : Char) (s : String) : List String :=
  (splitOnChar sep s.toList).map List.asString

/-- A character admitted anywhere in the local part of an address by the
zod email pattern: alphanumerics, `_`, the apostrophe, `+`, `-`, `.`. -/
def isLocalChar (c : Char) : Bool :=
  c.isAlphanum || c = '_' || c = Char.ofNat 39 || c = '+' || c = '-' || c = '.'

/-- A character admitted as the final character of the local part:
alphanumerics, `_`, `+`, `-` (no dot, no apostrophe). -/
def isLocalEndChar (c : Char) : Bool :=
  c.isAlphanum || c = '_' || c = '+' || c = '-'

/-- Two consecutive dots somewhere in the list. -/
def hasDoubleDot : List Char → Bool
  | '.' :: '.' :: _ => true
  | _ :: rest => hasDoubleDot rest
  | [] => false

/-- One non-final domain label: a leading alphanumeric followed by
alphanumerics or hyphens. -/
def labelOk (s : String) : Bool :=
  match s.toList with
  | [] => false
  | c :: rest => c.isAlphanum && rest.all (fun d => d.isAlphanum || d = '-')

/-- The final domain label: at least two characters, letters only. -/
def tldOk (s : String) : Bool :=
  2 ≤ s.length && s.toList.all Char.isAlpha

/-- The domain: one or more dot-terminated labels and a final letters-only
label of length at least two. -/
def domainOk (s : String) : Bool :=
  match (jsSplit '.' s).reverse with
  | [] => false
  | [_] => false
  | tld :: labels => tldOk tld && labels.all labelOk

/-- The local part: non-empty, all characters from the admitted class, not
starting with a dot, ending in an admitted final character. -/
def localOk (s : String) : Bool :=
  match s.toList with
  | [] => false
  | c :: _ =>
    s.toList.all isLocalChar && c ≠ '.' &&
    (match s.toList.getLast? with
     | some l => isLocalEndChar l
     | none => false)

/-- Modelled from the spec: the "RFC-5322-style address syntax" check that
`ComposeEmail.tsx` delegates to the zod library's `z.string().email()`
(the library itself is an external dependency, not part of this
repository's sources).  It follows zod's documented email pattern: a local
part of alphanumerics and `_ ' + - .`, not starting with a dot, not ending
in a dot or apostrophe, no two consecutive dots anywhere, one `@`, and a
dotted domain of alphanumeric-and-hyphen labels with a letters-only final
label of length at least two. -/
def isValidEmail (s : String) : Bool :=
  !hasDoubleDot s.toList &&
  (match jsSplit '@' s with
   | [l, d] => localOk l && domainOk d
   | _ => false)

/-- `parseEmails` of `ComposeEmail.tsx`: split the input on commas, trim
each part, drop the empty ones (an all-whitespace input gives `[]`). -/
def parseEmails (input : String) : List String :=
  if jsTrim input = "" then []
  else ((jsSplit ',' input).map jsTrim).filter (fun e => e ≠ "")

/-- `validateEmails` of `ComposeEmail.tsx`: the loop returns `false` at the
first address the email schema rejects, `true` when all pass. -/
def validateEmails (emails : List String) : Bool :=
  emails.all isValidEmail

/-- The form state that `handleSend` of `ComposeEmail.tsx` reads. -/
structure ComposeState where
  selectedConfig : String
  «to» : String
  cc : String
  bcc : String
  subject : String
  body : String
deriving DecidableEq

/-- What a run of the client-side `handleSend` does: abort with one of the
validation toasts, or invoke the `send-email` function with the given
body. -/
inductive ComposeOutcome where
  | noConfig
  | missingRecipient
  | invalidEmail
  | missingSubject
  | invoked (req : SendEmailRequest)
deriving DecidableEq

/-- `true` exactly when the outcome is an invocation of the dispatch
function. -/
def isInvoked : ComposeOutcome → Bool
  | .invoked _ => true
  | _ => false

/-- `handleSend` of `ComposeEmail.tsx`: require a selected configuration,
parse the three address inputs, require at least one recipient, validate
all addresses (`to ++ cc ++ bcc`), require a non-blank subject, then invoke
the edge function with trimmed subject/body, `cc`/`bcc` only when
non-empty, and `is_html: false`. -/
def handleSend (st : ComposeState) : ComposeOutcome :=
  if st.selectedConfig = "" then .noConfig
  else
    let toEmails := parseEmails st.«to»
    let ccEmails := parseEmails st.cc
    let bccEmails := parseEmails st.bcc
    if toEmails.length = 0 then .missingRecipient
    else if !validateEmails (toEmails ++ ccEmails ++ bccEmails) then .invalidEmail
    else if jsTrim st.subject = "" then .missingSubject
    else .invoked
      { smtp_config_id := some st.selectedConfig
        «to» := some toEmails
        cc := if 0 < ccEmails.length then some ccEmails else none
        bcc := if 0 < bccEmails.length then some bccEmails else none
        subject := some (jsTrim st.subject)
        body := some (jsTrim st.body)
        is_html := some false }

/-! ### Concrete fixtures used by counterexamples and witnesses -/

/-- A configuration owned by `user-1`. -/
def cfgA : SmtpConfig :=
  { id := "cfg-1", user_id := "user-1", smtp_host := "smtp.example.com",
    smtp_port := 587, smtp_username := "u", smtp_password := "p",
    from_email := "me@example.com", from_name := none, use_tls := true }

/-- A configuration owned by a different existing user, `user-2`. -/
def cfgB : SmtpConfig :=
  { id := "cfg-2", user_id := "user-2", smtp_host := "smtp.other.example",
    smtp_port := 465, smtp_username := "v", smtp_password := "q",
    from_email := "other@example.com", from_name := some "Other", use_tls := true }

/-- An environment in which auth resolves `Bearer tok` to `user-1`, the
store holds `cfgA` and `cfgB`, and transport and inserts all succeed. -/
def envOk : Env :=
  { resolveUser := fun h => if h = "Bearer tok" then some "user-1" else none
    configStore := [cfgA, cfgB]
    sendResult := .ok ()
    closeResult := .ok ()
    insertResult := fun _ => none }

/-- `envOk` with `client.send` throwing a connection-refused error. -/
def envSendFail : Env := { envOk with sendResult := .error "Connection refused" }

/-- `envOk` with every `sent_emails` insert failing. -/
def envInsertFail : Env := { envOk with insertResult := fun _ => some "insert failed" }

/-- A well-formed request body addressed to one valid recipient. -/
def rValid : SendEmailRequest :=
  { smtp_config_id := some "cfg-1", «to» := some ["a@x.com"], cc := none,
    bcc := none, subject := some "Hi", body := some "Hello", is_html := none }

/-- A POST carrying `rValid` with a resolvable token. -/
def reqValid : HttpRequest :=
  { method := "POST", authHeader := some "Bearer tok", bodyJson := .ok rValid }

/-- `reqValid` with the single recipient replaced by a syntactically invalid
address. -/
def reqBadAddress : HttpRequest :=
  { reqValid with bodyJson := .ok { rValid with «to» := some ["not-an-email"] } }

/-- `reqValid` with `cc` and `bcc` both the empty array. -/
def reqEmptyCc : HttpRequest :=
  { reqValid with bodyJson := .ok { rValid with cc := some [], bcc := some [] } }

/-- `reqValid` with an all-whitespace subject. -/
def reqWsSubject : HttpRequest :=
  { reqValid with bodyJson := .ok { rValid with subject := some " " } }

/-- `reqValid` asking for `cfg-2`, which `user-2` owns, as `user-1`. -/
def reqOtherCfg : HttpRequest :=
  { reqValid with bodyJson := .ok { rValid with smtp_config_id := some "cfg-2" } }

/-- `reqValid` with an empty-string subject. -/
def reqEmptySubject : HttpRequest :=
  { reqValid with bodyJson := .ok { rValid with subject := some "" } }

example : isValidEmail "a@x.com" = true := by decide
example : isValidEmail "not-an-email" = false := by decide
example : (handleSendEmail envOk reqValid).1.status = 200 := by decide
example : (handleSendEmail envOk reqBadAddress).1.status = 200 := by decide
example : (handleSendEmail envSendFail reqValid).1.status = 500 := by decide
example : (handleSendEmail envOk reqOtherCfg).1.status = 404 := by decide
example : (handleSendEmail envOk reqEmptyCc).2.inserts.map SentEmailRecord.cc_emails = [some []] := by decide

/-! ### Claims -/

/-- A lookup scoped to `uid` finds nothing when no stored configuration
with the requested id is owned by `uid`. -/
theorem lookupConfig_none_of_not_owned (store : List SmtpConfig) (id uid : String)
    (h : ∀ c ∈ store, c.id = id → c.user_id ≠ uid) :
    lookupConfig store id uid = none := by
  unfold lookupConfig
  have hf : store.filter (fun c => c.id == id && c.user_id == uid) = [] := by
    refine List.filter_eq_nil_iff.mpr ?_
    intro c hc
    simp only [Bool.and_eq_true, beq_iff_eq, not_and]
    intro h1 h2
    exact h c hc h1 h2
  rw [hf]

/-- C5: when the authenticated caller's `configurationId` matches no
configuration the caller owns — in particular when every stored
configuration with that id belongs to a different user — the handler
answers 404 with the constant error text `"SMTP configuration not found"`
(no field of the other owner's configuration appears in the response), and
the effect trace is empty: no transport contact and no `sent_emails`
insert. -/
theorem c5_not_owned_is_404 (env : Env) (req : HttpRequest) (a uid : String)
    (r : SendEmailRequest)
    (hm : req.method ≠ "OPTIONS")
    (ha : req.authHeader = some a)
    (hu : env.resolveUser a = some uid)
    (hb : req.bodyJson = .ok r)
    (hv : missingRequiredFields r = false)
    (hown : ∀ c ∈ env.configStore, c.id = r.smtp_config_id.getD "" → c.user_id ≠ uid) :
    (handleSendEmail env req).1.status = 404 ∧
    (handleSendEmail env req).1.success = some false ∧
    (handleSendEmail env req).1.error = some "SMTP configuration not found" ∧
    (handleSendEmail env req).2 = noEffects := by
  have hlook := lookupConfig_none_of_not_owned env.configStore
    (r.smtp_config_id.getD "") uid hown
  simp only [handleSendEmail, if_neg hm, ha, hu, hb, hv, hlook]
  exact ⟨rfl, rfl, rfl, rfl⟩

/-- The catch block always answers with HTTP status 500. -/
theorem catchBlock_status (env : Env) (req : HttpRequest) (e : String) (eff : Effects) :
    (catchBlock env req e eff).1.status = 500 := rfl

/-- The catch block never touches the transport: the send counter of the
incoming effect trace is unchanged. -/
theorem catchBlock_sendAttempts (env : Env) (req : HttpRequest) (e : String) (eff : Effects) :
    (catchBlock env req e eff).2.sendAttempts = eff.sendAttempts := rfl

/-- The catch block never calls `client.close`. -/
theorem catchBlock_closeAttempted (env : Env) (req : HttpRequest) (e : String) (eff : Effects) :
    (catchBlock env req e eff).2.closeAttempted = eff.closeAttempted := rfl

/-- The catch block cannot close a session. -/
theorem catchBlock_sessionClosed (env : Env) (req : HttpRequest) (e : String) (eff : Effects) :
    (catchBlock env req e eff).2.sessionClosed = eff.sessionClosed := rfl

/-- The catch block leaves the transported content unchanged. -/
theorem catchBlock_sentContent (env : Env) (req : HttpRequest) (e : String) (eff : Effects) :
    (catchBlock env req e eff).2.sentContent = eff.sentContent := rfl

/-- The catch block makes at most one insert attempt of its own. -/
theorem catchInserts_length (env : Env) (req : HttpRequest) (e : String) :
    (catchInserts env req e).length ≤ 1 := by
  unfold catchInserts
  (repeat' split) <;> simp

/-- Any record the catch block inserts is the `failed` record for the user
resolved from the request's own `Authorization` header and the re-parsed
request body. -/
theorem catchInserts_mem (env : Env) (req : HttpRequest) (e : String)
    (rec : SentEmailRecord) (h : rec ∈ catchInserts env req e) :
    ∃ a uid r, req.authHeader = some a ∧ env.resolveUser a = some uid ∧
      req.bodyJson = .ok r ∧ rec = failedRecord uid r e := by
  unfold catchInserts at h
  cases hah : req.authHeader with
  | none => simp only [hah] at h; exact absurd h (List.not_mem_nil rec)
  | some a =>
    simp only [hah] at h
    cases hu : env.resolveUser a with
    | none => simp only [hu] at h; exact absurd h (List.not_mem_nil rec)
    | some uid =>
      simp only [hu] at h
      cases hb : req.bodyJson with
      | error msg => simp only [hb] at h; exact absurd h (List.not_mem_nil rec)
      | ok r =>
        simp only [hb, List.mem_singleton] at h
        refine ⟨a, uid, r, ?_, ?_, ?_, h⟩ <;> first | rfl | assumption

/-- Entering the catch block with no prior insert keeps both global bounds:
at most one send, at most one insert attempt. -/
theorem catchBlock_effects_bound (env : Env) (req : HttpRequest) (e : String)
    (eff : Effects) (h1 : eff.sendAttempts ≤ 1) (h2 : eff.inserts = []) :
    (catchBlock env req e eff).2.sendAttempts ≤ 1 ∧
    (catchBlock env req e eff).2.inserts.length ≤ 1 := by
  constructor
  · rw [catchBlock_sendAttempts]
    exact h1
  · show (eff.inserts ++ catchInserts env req e).length ≤ 1
    rw [h2]
    simpa using catchInserts_length env req e

/-- C7: every single dispatch call performs at most one transport
transmission attempt and at most one `sent_emails` insert attempt, on
every path — transport-failure and history-failure paths included. -/
theorem c7_at_most_one_send_one_insert (env : Env) (req : HttpRequest) :
    (handleSendEmail env req).2.sendAttempts ≤ 1 ∧
    (handleSendEmail env req).2.inserts.length ≤ 1 := by
  simp only [handleSendEmail]
  (repeat' split) <;>
    first
      | exact catchBlock_effects_bound _ _ _ _ (by simp [noEffects]) (by simp [noEffects])
      | exact ⟨by simp [noEffects], by simp [noEffects]⟩

/-- C9: a missing `Authorization` header, or one that does not resolve to a
user, yields 401 with an empty effect trace — the gate sits before body
parsing and validation, so this holds even for an unparseable body; and
every 400/401/404 response (validation or lookup error) likewise comes
with an empty effect trace: no transport contact, no history insert. -/
theorem c9_auth_gate_and_error_paths_effect_free (env : Env) (req : HttpRequest)
    (hm : req.method ≠ "OPTIONS") :
    ((∀ a, req.authHeader = some a → env.resolveUser a = none) →
      (handleSendEmail env req).1.status = 401 ∧
      (handleSendEmail env req).2 = noEffects) ∧
    (((handleSendEmail env req).1.status = 400 ∨
      (handleSendEmail env req).1.status = 401 ∨
      (handleSendEmail env req).1.status = 404) →
      (handleSendEmail env req).2 = noEffects) := by
  have key : ((handleSendEmail env req).1.status = 200 ∨
      (handleSendEmail env req).1.status = 500) ∨
      (handleSendEmail env req).2 = noEffects := by
    simp only [handleSendEmail]
    (repeat' split) <;>
      first
        | exact .inr rfl
        | exact .inl (.inl rfl)
        | exact .inl (.inr (catchBlock_status _ _ _ _))
  constructor
  · intro hnone
    cases hah : req.authHeader with
    | none => constructor <;> simp [handleSendEmail, hah, hm]
    | some a =>
      have hres := hnone a hah
      constructor <;> simp [handleSendEmail, hah, hres, hm]
  · intro hst
    rcases key with hk | hk
    · rcases hk with h2 | h2 <;> rcases hst with h4 | h4 | h4 <;> omega
    · exact hk

/-- C9 witness: with no `Authorization` header and an unparseable body, the
call answers 401 and performs no effect at all. -/
theorem c9_witness :
    (handleSendEmail envOk
      { method := "POST", authHeader := none, bodyJson := .error "bad json" }).1.status = 401 ∧
    (handleSendEmail envOk
      { method := "POST", authHeader := none, bodyJson := .error "bad json" }).2 = noEffects :=
  (c9_auth_gate_and_error_paths_effect_free envOk
    { method := "POST", authHeader := none, bodyJson := .error "bad json" }
    (by decide)).1 (fun a h => Option.noConfusion h)

/-- If the effect trace entering the catch block holds no earlier insert,
any record in its outgoing trace is attributed to the user resolved from
the request's own header. -/
theorem catchBlock_mem (env : Env) (req : HttpRequest) (e : String) (eff : Effects)
    (h2 : eff.inserts = []) (rec : SentEmailRecord)
    (h : rec ∈ (catchBlock env req e eff).2.inserts) :
    req.authHeader.bind env.resolveUser = some rec.user_id := by
  have heq : (catchBlock env req e eff).2.inserts = eff.inserts ++ catchInserts env req e := rfl
  rw [heq, h2, List.nil_append] at h
  obtain ⟨a, uid, r, hah, hu, hb, hrec⟩ := catchInserts_mem env req e rec h
  subst hrec
  simp [hah, hu, failedRecord]

/-- C10: every `sent_emails` record a dispatch call attempts to insert — on
the success path and on the failure path — carries the user id that the
request's own `Authorization` header resolves to; in particular a record is
only ever written when that header is present and resolves to a known
user. -/
theorem c10_history_attributed_to_caller (env : Env) (req : HttpRequest)
    (rec : SentEmailRecord) (h : rec ∈ (handleSendEmail env req).2.inserts) :
    req.authHeader.bind env.resolveUser = some rec.user_id := by
  simp only [handleSendEmail] at h
  repeat' split at h
  all_goals
    first
      | (simp [noEffects] at h
         all_goals exact h.elim)
      | (simp only [catchBlock, noEffects, List.nil_append] at h
         obtain ⟨a, uid, r, hah, hu, hb, hrec⟩ := catchInserts_mem env req _ rec h
         subst hrec
         simp [hah, hu, failedRecord])
      | (simp at h
         subst h
         simp_all [successRecord, Option.bind])

/-- C1 counterexample: `"not-an-email"` fails address validation, yet the
handler, given a request whose only recipient is that string, does not
answer 400 `InvalidRequest`: it attempts the transport send (opening the
session) and, the transport willing, even reports success — the dispatch
handler performs no address-syntax validation at all. -/
theorem c1_counterexample :
    isValidEmail "not-an-email" = false ∧
    (handleSendEmail envOk reqBadAddress).1.status = 200 ∧
    (handleSendEmail envOk reqBadAddress).1.success = some true ∧
    (handleSendEmail envOk reqBadAddress).2.sendAttempts = 1 := by decide

/-- C1 amended: address-syntax validation lives in the compose client, not
in the dispatch handler: whenever any address among `to ++ cc ++ bcc`
fails validation, the client's `handleSend` aborts before invoking the
dispatch function, so no request is issued and no transport session can be
opened. -/
theorem c1_client_validates_addresses (st : ComposeState)
    (h : validateEmails
      (parseEmails st.«to» ++ parseEmails st.cc ++ parseEmails st.bcc) = false) :
    isInvoked (handleSend st) = false := by
  simp only [handleSend]
  (repeat' split) <;> simp_all [isInvoked]

/-- C1 witness: the concrete compose state addressed to `"not-an-email"`
fails validation and is aborted client-side. -/
theorem c1_witness :
    validateEmails
      (parseEmails "not-an-email" ++ parseEmails "" ++ parseEmails "") = false ∧
    isInvoked (handleSend
      { selectedConfig := "cfg-1", «to» := "not-an-email", cc := "", bcc := "",
        subject := "Hi", body := "Hello" }) = false :=
  ⟨by decide, c1_client_validates_addresses
    { selectedConfig := "cfg-1", «to» := "not-an-email", cc := "", bcc := "",
      subject := "Hi", body := "Hello" } (by decide)⟩

/-- C2 counterexample: when `client.send` throws `"Connection refused"` on
an otherwise valid authenticated request, the response carries
`success: false` and that error text, but its HTTP status is 500, not the
claimed 200. -/
theorem c2_counterexample :
    (handleSendEmail envSendFail reqValid).1.success = some false ∧
    (handleSendEmail envSendFail reqValid).1.error = some "Connection refused" ∧
    (handleSendEmail envSendFail reqValid).1.status ≠ 200 ∧
    (handleSendEmail envSendFail reqValid).1.status = 500 := by decide

/-- C2 amended: every transport failure is caught and surfaced as a
structured result — `success: false` with the transport error's message —
but under HTTP status 500: the handler's catch block answers 500 for every
caught error, transport failures included; status 200 is used only for the
success response. -/
theorem c2_transport_failure_is_500 (env : Env) (req : HttpRequest)
    (a uid e : String) (r : SendEmailRequest) (cfg : SmtpConfig)
    (hm : req.method ≠ "OPTIONS")
    (ha : req.authHeader = some a)
    (hu : env.resolveUser a = some uid)
    (hb : req.bodyJson = .ok r)
    (hv : missingRequiredFields r = false)
    (hc : lookupConfig env.configStore (r.smtp_config_id.getD "") uid = some cfg)
    (hs : env.sendResult = .error e)
    (he : e ≠ "") :
    (handleSendEmail env req).1.status = 500 ∧
    (handleSendEmail env req).1.success = some false ∧
    (handleSendEmail env req).1.error = some e := by
  simp only [handleSendEmail, if_neg hm, ha, hu, hb, hv, hc, hs, catchBlock, if_neg he]
  exact ⟨rfl, rfl, rfl⟩

/-- C2 witness: the amended statement at the concrete connection-refused
run. -/
theorem c2_witness :
    (handleSendEmail envSendFail reqValid).1.status = 500 ∧
    (handleSendEmail envSendFail reqValid).1.success = some false ∧
    (handleSendEmail envSendFail reqValid).1.error = some "Connection refused" :=
  c2_transport_failure_is_500 envSendFail reqValid "Bearer tok" "user-1"
    "Connection refused" rValid cfgA (by decide) rfl (by decide) rfl (by decide)
    (by decide) rfl (by decide)

/-- C3 counterexample: on the concrete run where `client.send` throws, the
transport session was opened (a send was attempted) yet `client.close` is
never called: the session is not closed on this exit path. -/
theorem c3_counterexample :
    (handleSendEmail envSendFail reqValid).2.sendAttempts = 1 ∧
    (handleSendEmail envSendFail reqValid).2.closeAttempted = false ∧
    (handleSendEmail envSendFail reqValid).2.sessionClosed = false := by decide

/-- C3 amended: `client.close` is called only on the path where
transmission succeeded (`await client.send` then `await client.close`,
with no `finally`): whenever `client.send` throws, the call returns
without ever attempting to close the session. -/
theorem c3_no_close_when_send_fails (env : Env) (req : HttpRequest) (e : String)
    (hs : env.sendResult = .error e) :
    (handleSendEmail env req).2.closeAttempted = false ∧
    (handleSendEmail env req).2.sessionClosed = false := by
  simp only [handleSendEmail, hs]
  (repeat' split) <;>
    constructor <;>
      simp [catchBlock_closeAttempted, catchBlock_sessionClosed, noEffects]

/-- C3 witness: the amended statement at the concrete connection-refused
run. -/
theorem c3_witness :
    (handleSendEmail envSendFail reqValid).2.closeAttempted = false ∧
    (handleSendEmail envSendFail reqValid).2.sessionClosed = false :=
  c3_no_close_when_send_fails envSendFail reqValid "Connection refused" rfl

/-- C4 counterexample: a successful dispatch whose `cc` and `bcc` are empty
arrays stores them in the `sent_emails` record as empty arrays — JS
`cc || null` keeps `[]`, which is truthy — not as null/absent as the claim
requires (the transport side of the claim does hold: the content handed to
the transport carries no `cc`/`bcc`). -/
theorem c4_counterexample :
    (handleSendEmail envOk reqEmptyCc).2.inserts.map SentEmailRecord.cc_emails
      = [some []] ∧
    (handleSendEmail envOk reqEmptyCc).2.inserts.map SentEmailRecord.bcc_emails
      = [some []] ∧
    (handleSendEmail envOk reqEmptyCc).2.sentContent.map EmailContent.cc
      = some none ∧
    (handleSendEmail envOk reqEmptyCc).2.sentContent.map EmailContent.bcc
      = some none := by decide

/-- C4 amended: when `cc` and `bcc` are empty sequences, they are indeed
not handed to the transport as addressed recipient lists (the
`emailContent` carries neither field), but every `sent_emails` record the
call attempts — success or failure path — stores them as empty arrays,
not as null: only an absent `cc`/`bcc` is stored as null. -/
theorem c4_empty_cc_bcc_forwarding (env : Env) (req : HttpRequest)
    (r : SendEmailRequest)
    (hb : req.bodyJson = .ok r)
    (hcc : r.cc = some [])
    (hbcc : r.bcc = some []) :
    ((handleSendEmail env req).2.sentContent.all
      (fun c => c.cc == none && c.bcc == none)) = true ∧
    ((handleSendEmail env req).2.inserts.all
      (fun rec => rec.cc_emails == some [] && rec.bcc_emails == some [])) = true := by
  simp only [handleSendEmail, hb]
  repeat' split
  all_goals
    first
      | (constructor <;> simp [noEffects, Option.all]
         done)
      | (constructor
         · simp [catchBlock, noEffects, buildEmailContent, hcc, hbcc, Option.all]
         · (simp only [catchBlock, noEffects, List.nil_append]
            refine List.all_eq_true.mpr ?_
            intro rec hrec
            obtain ⟨a, uid, r2, hah, hu, hb2, hrec2⟩ :=
              catchInserts_mem env req _ rec hrec
            rw [hb] at hb2
            cases hb2
            subst hrec2
            simp [failedRecord, jsOrNull, hcc, hbcc]))
      | (constructor
         · simp_all [buildEmailContent, hcc, hbcc, Option.all]
         · simp_all [successRecord, jsOrNull, hcc, hbcc])

/-- C4 witness: the amended statement at the concrete empty-`cc`/`bcc`
run. -/
theorem c4_witness :
    ((handleSendEmail envOk reqEmptyCc).2.sentContent.all
      (fun c => c.cc == none && c.bcc == none)) = true ∧
    ((handleSendEmail envOk reqEmptyCc).2.inserts.all
      (fun rec => rec.cc_emails == some [] && rec.bcc_emails == some [])) = true :=
  c4_empty_cc_bcc_forwarding envOk reqEmptyCc
    { rValid with cc := some [], bcc := some [] } rfl rfl rfl

/-- C8 counterexample: an all-whitespace subject is empty after trimming,
yet the handler accepts the request — `!subject` is false for `" "` since
the check does not trim — transmits the message and answers 200. -/
theorem c8_counterexample :
    jsTrim " " = "" ∧
    (handleSendEmail envOk reqWsSubject).1.status = 200 ∧
    (handleSendEmail envOk reqWsSubject).2.sendAttempts = 1 ∧
    (handleSendEmail envOk reqWsSubject).2.transmitted = true := by decide

/-- C8 amended: the handler rejects with 400 `InvalidRequest` and performs
no effect exactly when `subject` or `body` is missing or the empty string
— it applies no trimming, so a whitespace-only value passes the check and
is transmitted (the compose client trims both fields before dispatching,
so through the UI a whitespace-only body does arrive empty). -/
theorem c8_empty_required_fields_rejected (env : Env) (req : HttpRequest)
    (a uid : String) (r : SendEmailRequest)
    (hm : req.method ≠ "OPTIONS")
    (ha : req.authHeader = some a)
    (hu : env.resolveUser a = some uid)
    (hb : req.bodyJson = .ok r)
    (hsb : falsyStr r.subject = true ∨ falsyStr r.body = true) :
    (handleSendEmail env req).1.status = 400 ∧
    (handleSendEmail env req).1.error = some "Missing required fields" ∧
    (handleSendEmail env req).2 = noEffects := by
  have hv : missingRequiredFields r = true := by
    unfold missingRequiredFields
    rcases hsb with h | h <;> simp [h]
  simp [handleSendEmail, hm, ha, hu, hb, hv]

/-- C8 witness: an empty-string subject is rejected with 400 and no
effects. -/
theorem c8_witness :
    falsyStr (some "") = true ∧
    (handleSendEmail envOk reqEmptySubject).1.status = 400 ∧
    (handleSendEmail envOk reqEmptySubject).2 = noEffects := by
  have h := c8_empty_required_fields_rejected envOk reqEmptySubject
    "Bearer tok" "user-1" { rValid with subject := some "" }
    (by decide) rfl (by decide) rfl (Or.inl (by decide))
  exact ⟨by decide, h.1, h.2.2⟩

/-- C5 witness: asking for the other user's `cfg-2` as `user-1` yields 404
with the constant error text and an empty effect trace. -/
theorem c5_witness :
    (handleSendEmail envOk reqOtherCfg).1.status = 404 ∧
    (handleSendEmail envOk reqOtherCfg).1.error = some "SMTP configuration not found" ∧
    (handleSendEmail envOk reqOtherCfg).2 = noEffects := by
  have h := c5_not_owned_is_404 envOk reqOtherCfg "Bearer tok" "user-1"
    { rValid with smtp_config_id := some "cfg-2" } (by decide) rfl (by decide) rfl
    (by decide) (by decide)
  exact ⟨h.1, h.2.2.1, h.2.2.2⟩

/-- C6: when transport delivery succeeds and the subsequent `sent_emails`
insert reports a failure, the caller still receives the 200 success
response — the handler only logs the insert error, so the history failure
never flips the user-visible outcome. -/
theorem c6_history_failure_keeps_success (env : Env) (req : HttpRequest)
    (a uid err : String) (r : SendEmailRequest) (cfg : SmtpConfig)
    (hm : req.method ≠ "OPTIONS")
    (ha : req.authHeader = some a)
    (hu : env.resolveUser a = some uid)
    (hb : req.bodyJson = .ok r)
    (hv : missingRequiredFields r = false)
    (hc : lookupConfig env.configStore (r.smtp_config_id.getD "") uid = some cfg)
    (hs : env.sendResult = .ok ())
    (hcl : env.closeResult = .ok ())
    (hins : env.insertResult (successRecord uid r) = some err) :
    (handleSendEmail env req).1.status = 200 ∧
    (handleSendEmail env req).1.success = some true ∧
    (handleSendEmail env req).1.message = some "Email sent successfully" ∧
    (handleSendEmail env req).2.transmitted = true ∧
    (handleSendEmail env req).2.inserts = [successRecord uid r] := by
  simp only [handleSendEmail, if_neg hm, ha, hu, hb, hv, hc, hs, hcl]
  exact ⟨rfl, rfl, rfl, rfl, rfl⟩

/-- C6 witness: with every insert failing, the successful delivery still
answers 200 / `success: true`. -/
theorem c6_witness :
    envInsertFail.insertResult (successRecord "user-1" rValid) = some "insert failed" ∧
    (handleSendEmail envInsertFail reqValid).1.success = some true ∧
    (handleSendEmail envInsertFail reqValid).1.status = 200 := by
  have h := c6_history_failure_keeps_success envInsertFail reqValid "Bearer tok"
    "user-1" "insert failed" rValid cfgA (by decide) rfl (by decide) rfl
    (by decide) (by decide) rfl rfl rfl
  exact ⟨rfl, h.2.1, h.1⟩

/-- C10 witness: on the concrete success run, the single inserted record
belongs to the user the request's header resolves to. -/
theorem c10_witness :
    successRecord "user-1" rValid ∈ (handleSendEmail envOk reqValid).2.inserts ∧
    reqValid.authHeader.bind envOk.resolveUser
      = some (successRecord "user-1" rValid).user_id :=
  ⟨by decide, c10_history_attributed_to_caller envOk reqValid
    (successRecord "user-1" rValid) (by decide)⟩
